import Mathlib

/-!
Verification development for the RoboFleet telemetry relay and
session/task lifecycle manager (source files database.py and
redis_server.py).

Each Python function relevant to the checked properties is embedded as a
Lean definition.  Pure computations become Lean functions over the reals;
stateful handlers become explicit state-passing functions that also emit a
trace of the persistence and broker calls they perform, so that call
counts and call orders can be reasoned about.  The sessions table is
modelled as an append-only list of rows with a logical clock supplying
strictly increasing timestamps, matching the INSERT-only SQL in
database.py.
-/

namespace RoboFleet

/-! ## database.py: distance and movement recording -/

/-- Embedding of calculate_distance (database.py): Euclidean distance. -/
noncomputable def calculate_distance (x1 y1 x2 y2 : ℝ) : ℝ :=
  Real.sqrt ((x2 - x1) ^ 2 + (y2 - y1) ^ 2)

/-- The distance stored by record_position (database.py): 0.0 unless both
previous coordinates are present, else calculate_distance from them. -/
noncomputable def recordPositionDistance (prev_x prev_y : Option ℝ) (x y : ℝ) : ℝ :=
  match prev_x, prev_y with
  | some px, some py => calculate_distance px py x y
  | _, _ => 0

/-- One row of the robot_movement table. -/
structure MovementRow where
  robot_id : Int
  x : ℝ
  y : ℝ
  ori : ℝ
  distance : ℝ

/-- Embedding of record_position (database.py): the row inserted into
robot_movement for the given call arguments. -/
noncomputable def record_position (robot_id : Int) (x y ori : ℝ)
    (prev_x prev_y : Option ℝ) : MovementRow :=
  { robot_id := robot_id, x := x, y := y, ori := ori,
    distance := recordPositionDistance prev_x prev_y x y }

/-! ## database.py: robot_sessions table and session tracking -/

/-- One row of the robot_sessions table. -/
structure SessionRow where
  id : Nat
  robot_id : Int
  status : String
  timestamp : Nat
  session_duration : Option Nat
  notes : Option String
deriving DecidableEq

/-- The robot_sessions table together with the serial-id counter and a
logical clock standing for NOW(); rows are only ever appended. -/
structure SessionDb where
  rows : List SessionRow
  next_id : Nat
  clock : Nat
deriving DecidableEq

def emptyDb : SessionDb := { rows := [], next_id := 0, clock := 0 }

/-- An INSERT INTO robot_sessions, returning the fresh row id. -/
def insertRow (db : SessionDb) (robot_id : Int) (status : String)
    (session_duration : Option Nat) (notes : Option String) : SessionDb × Nat :=
  ({ rows := db.rows ++
        [{ id := db.next_id, robot_id := robot_id, status := status,
           timestamp := db.clock, session_duration := session_duration,
           notes := notes }],
     next_id := db.next_id + 1, clock := db.clock + 1 }, db.next_id)

/-- SELECT ... WHERE robot_id = $1 AND status = 'online'
ORDER BY timestamp DESC LIMIT 1. -/
def latestOnlineRow (rows : List SessionRow) (robot_id : Int) : Option SessionRow :=
  rows.foldl
    (fun acc r =>
      if r.robot_id == robot_id && r.status == "online" then
        match acc with
        | none => some r
        | some a => if a.timestamp ≤ r.timestamp then some r else some a
      else acc)
    none

/-- Embedding of start_robot_session (database.py): if a most-recent
online row exists it first inserts an auto-close offline row carrying a
duration, then inserts the new online row and returns its id. -/
def start_robot_session (db : SessionDb) (robot_id : Int) : SessionDb × Nat :=
  let db1 :=
    match latestOnlineRow db.rows robot_id with
    | some u =>
        (insertRow db robot_id "offline" (some (db.clock - u.timestamp))
          (some "Auto-closed: New session started")).1
    | none => db
  insertRow db1 robot_id "online" none none

/-- Embedding of end_robot_session (database.py): looks up the most
recent row with status online; if none, returns none without writing;
otherwise inserts an offline row with the computed duration and a
disconnect note, returning the new row id. -/
def end_robot_session (db : SessionDb) (robot_id : Int) (reason : String) :
    SessionDb × Option Nat :=
  match latestOnlineRow db.rows robot_id with
  | none => (db, none)
  | some last_online =>
      let dur := db.clock - last_online.timestamp
      let r := insertRow db robot_id "offline" (some dur)
        (some ("Disconnected: " ++ reason))
      (r.1, some r.2)

/-- A call to the session-tracking API. -/
inductive SessionOp where
  | start (robot_id : Int)
  | stop (robot_id : Int) (reason : String)
deriving DecidableEq

/-- Run a sequence of start_robot_session / end_robot_session calls. -/
def runSessionOps (db : SessionDb) : List SessionOp → SessionDb
  | [] => db
  | SessionOp.start rid :: rest => runSessionOps (start_robot_session db rid).1 rest
  | SessionOp.stop rid reason :: rest =>
      runSessionOps (end_robot_session db rid reason).1 rest

/-- Number of rows with status online for the given robot. -/
def countOnline (rows : List SessionRow) (robot_id : Int) : Nat :=
  (rows.filter (fun r => r.robot_id == robot_id && r.status == "online")).length

/-- Number of start calls for the given robot in a call sequence. -/
def countStarts (ops : List SessionOp) (robot_id : Int) : Nat :=
  (ops.filter (fun op =>
    match op with
    | SessionOp.start rid => rid == robot_id
    | SessionOp.stop _ _ => false)).length

/-- Every offline row carries a non-null session_duration. -/
def offlineDurationsOk (rows : List SessionRow) : Bool :=
  rows.all (fun r => r.status != "offline" || r.session_duration.isSome)

/-! ## redis_server.py: handle_planning_state -/

/-- A /planning_state frame as consumed by handle_planning_state:
its move_state and fail_reason_str fields. -/
structure PlanningEvent where
  move_state : String
  fail_reason_str : String
deriving DecidableEq

/-- The broker keys handle_planning_state reads or deletes. -/
structure PlanningRedis where
  current_task_id : Option Int
deriving DecidableEq

/-- One persistence or broker call performed by handle_planning_state. -/
inductive TaskEff where
  | setPlanningState (move_state : String)
  | setStatus (st : String)
  | setState (st : String)
  | updateTaskStatus (task_id : Int) (st : String) (fail_reason : Option String)
  | clearCurrentTask
  | publish (channel : String) (task_id : Int)
deriving DecidableEq

/-- Embedding of handle_planning_state (redis_server.py): stores the
planning state, reads the current-task cross-reference, and branches on
move_state exactly as the source does, emitting its calls in order.  In
the source only the failed and cancelled branches delete
robot:current_task_id; the succeeded branch does not. -/
def handle_planning_state (s : PlanningRedis) (ev : PlanningEvent) :
    PlanningRedis × List TaskEff :=
  let base := [TaskEff.setPlanningState ev.move_state]
  match s.current_task_id with
  | none => (s, base)
  | some tid =>
      if ev.move_state == "moving" then
        (s, base ++ [TaskEff.setStatus "active", TaskEff.setState "moving"])
      else if ev.move_state == "succeeded" then
        (s, base ++ [TaskEff.setStatus "idle", TaskEff.setState "idle",
          TaskEff.updateTaskStatus tid "completed" none,
          TaskEff.publish "robot:task_completed" tid])
      else if ev.move_state == "failed" then
        ({ current_task_id := none },
          base ++ [TaskEff.setStatus "error", TaskEff.setState "failed",
            TaskEff.updateTaskStatus tid "failed" (some ev.fail_reason_str),
            TaskEff.clearCurrentTask,
            TaskEff.publish "robot:task_failed" tid])
      else if ev.move_state == "cancelled" then
        ({ current_task_id := none },
          base ++ [TaskEff.setStatus "idle", TaskEff.setState "cancelled",
            TaskEff.updateTaskStatus tid "cancelled" none,
            TaskEff.clearCurrentTask,
            TaskEff.publish "robot:task_cancelled" tid])
      else (s, base)

/-- Feed a sequence of planning-state frames through
handle_planning_state, accumulating the emitted calls. -/
def run_planning_events (s : PlanningRedis) :
    List PlanningEvent → PlanningRedis × List TaskEff
  | [] => (s, [])
  | ev :: rest =>
      let r1 := handle_planning_state s ev
      let r2 := run_planning_events r1.1 rest
      (r2.1, r1.2 ++ r2.2)

/-! ## redis_server.py: pub_robot_status

The telemetry loop is embedded as a trace machine.  Its input is a list
of connection epochs; each epoch carries the receive events observed on
that connection and the way the connection ends.  The machine emits the
persistence and broker calls the source performs, in order.  A malformed
frame stands for a frame on which json.loads raises, and a dbError event
stands for a persistence or broker call raising while a frame is being
handled; both escape the inner receive loop (only asyncio.TimeoutError
is caught there) and reach the outer generic exception handler. -/

/-- A successfully parsed frame, by topic. -/
inductive Frame where
  | battery
  | pose (x y : ℝ)
  | planning (move_state : String)

/-- One outcome of a receive attempt inside the inner loop. -/
inductive RecvEvent where
  | timeout
  | frame (f : Frame)
  | malformed
  | dbError (ename : String)

/-- How a connection epoch ends when no exception escaped frame
handling: a connection-level exception, or the shutdown flag. -/
inductive EpochEnd where
  | connLost (ename : String)
  | shutdown

/-- One connection epoch of the telemetry loop. -/
structure Epoch where
  events : List RecvEvent
  ending : EpochEnd

/-- One persistence or broker call performed by pub_robot_status. -/
inductive Eff where
  | startSession (sid : Nat)
  | endSession (reason : String)
  | setOnline
  | setOffline
  | setBattery
  | publishStatus
  | record (x y : ℝ) (prev_x prev_y : Option ℝ)
  | publishPose
  | taskWrite (task_id : Int) (st : String)
  | clearTask
  | sleep5
  | reconnectWait (secs : Nat)

/-- The local state of pub_robot_status: prev_pose and session_id are
the function locals of the same names; next_sid supplies fresh session
ids; current_task mirrors the broker key robot:{id}:current_task. -/
structure PubState where
  prev_pose : Option (ℝ × ℝ)
  session_id : Option Nat
  next_sid : Nat
  current_task : Option Int

/-- Frame dispatch of the inner receive loop of pub_robot_status. -/
def handleFrame (s : PubState) : Frame → PubState × List Eff
  | Frame.battery => (s, [Eff.setBattery, Eff.publishStatus])
  | Frame.pose x y =>
      ({ s with prev_pose := some (x, y) },
        [Eff.record x y (s.prev_pose.map Prod.fst) (s.prev_pose.map Prod.snd),
         Eff.publishPose])
  | Frame.planning move_state =>
      match s.current_task with
      | some tid =>
          if move_state == "succeed" then
            ({ s with current_task := none },
              [Eff.taskWrite tid "completed", Eff.clearTask])
          else if move_state == "failed" then
            ({ s with current_task := none },
              [Eff.taskWrite tid "failed", Eff.clearTask])
          else (s, [])
      | none => (s, [])

/-- The inner receive loop: processes events until the list ends or an
exception (malformed frame, persistence failure) escapes; returns the
exception name if one did, and the unprocessed events are dropped. -/
def processEvents (s : PubState) :
    List RecvEvent → PubState × List Eff × Option String
  | [] => (s, [], none)
  | RecvEvent.timeout :: rest => processEvents s rest
  | RecvEvent.malformed :: _ => (s, [], some "JSONDecodeError")
  | RecvEvent.dbError ename :: _ => (s, [], some ename)
  | RecvEvent.frame f :: rest =>
      let r1 := handleFrame s f
      let r2 := processEvents r1.1 rest
      (r2.1, r1.2 ++ r2.2.1, r2.2.2)

/-- Connection establishment: if session_id is None a new session is
started and the live status is set online, as in the source. -/
def onConnect (s : PubState) : PubState × List Eff :=
  match s.session_id with
  | some _ => (s, [])
  | none =>
      ({ s with session_id := some s.next_sid, next_sid := s.next_sid + 1 },
        [Eff.startSession s.next_sid, Eff.setOnline])

/-- One iteration of the outer loop of pub_robot_status over a
connection epoch.  The Bool result is true when the inner loop observed
the shutdown flag, ending the outer loop. -/
def runEpoch (s : PubState) (e : Epoch) : PubState × List Eff × Bool :=
  let c := onConnect s
  let p := processEvents c.1 e.events
  match p.2.2 with
  | some ename =>
      match p.1.session_id with
      | some _ =>
          ({ p.1 with session_id := none },
            c.2 ++ p.2.1 ++ [Eff.endSession ("unexpected_error: " ++ ename),
              Eff.sleep5], false)
      | none => (p.1, c.2 ++ p.2.1 ++ [Eff.sleep5], false)
  | none =>
      match e.ending with
      | EpochEnd.connLost ename =>
          match p.1.session_id with
          | some _ =>
              ({ p.1 with session_id := none },
                c.2 ++ p.2.1 ++
                  [Eff.endSession ("Connection_lost: " ++ ename),
                   Eff.setOffline, Eff.publishStatus, Eff.reconnectWait 5],
                false)
          | none => (p.1, c.2 ++ p.2.1 ++ [Eff.reconnectWait 5], false)
      | EpochEnd.shutdown => (p.1, c.2 ++ p.2.1, true)

/-- The outer loop over the connection epochs; stops early when the
shutdown flag was observed inside an epoch. -/
def runEpochs (s : PubState) : List Epoch → PubState × List Eff × Bool
  | [] => (s, [], false)
  | e :: rest =>
      let r1 := runEpoch s e
      if r1.2.2 then (r1.1, r1.2.1, true)
      else
        let r2 := runEpochs r1.1 rest
        (r2.1, r1.2.1 ++ r2.2.1, r2.2.2)

/-- Embedding of pub_robot_status (redis_server.py): runs the epochs
from the initial locals (prev_pose = None, session_id = None) and, as in
the source after the outer loop, ends any still-open session with the
server_shutdown reason. -/
def pub_robot_status (task0 : Option Int) (epochs : List Epoch) : List Eff :=
  let s0 : PubState :=
    { prev_pose := none, session_id := none, next_sid := 0, current_task := task0 }
  let r := runEpochs s0 epochs
  match r.1.session_id with
  | some _ => r.2.1 ++ [Eff.endSession "server_shutdown", Eff.setOffline]
  | none => r.2.1

/-! ## redis_server.py: pub_robot_status_manager -/

/-- The backoff computed by the manager after incrementing
restart_count: min(5 * restart_count, 60). -/
def wait_time (restart_count : Nat) : Nat := min (5 * restart_count) 60

/-- Observable actions of the manager loop. -/
inductive MEff where
  | monitorRun (robot_id : Int)
  | restartWait (secs : Nat)
deriving DecidableEq

/-- The manager's restart loop: given the current restart_count and the
number of crashes still to come, runs the monitor, and after each crash
increments restart_count and waits wait_time seconds before the next
run; the final run exits via the shutdown flag. -/
def managerLoop (robot_id : Int) : Nat → Nat → List MEff
  | _, 0 => [MEff.monitorRun robot_id]
  | restart_count, k + 1 =>
      MEff.monitorRun robot_id ::
        MEff.restartWait (wait_time (restart_count + 1)) ::
          managerLoop robot_id (restart_count + 1) k

/-- Embedding of pub_robot_status_manager (redis_server.py): resolves
the robot id from its serial number; if the lookup yields no id (or the
Python-falsy id 0) it returns at once, running nothing; otherwise it
enters the restart loop with restart_count = 0. -/
def pub_robot_status_manager (robot_id_lookup : Option Int) (crashes : Nat) :
    List MEff :=
  match robot_id_lookup with
  | none => []
  | some robot_id =>
      if robot_id == 0 then [] else managerLoop robot_id 0 crashes

/-- The backoff waits, in order, taken from a manager trace. -/
def restartWaits (effs : List MEff) : List Nat :=
  effs.filterMap (fun e =>
    match e with
    | MEff.restartWait w => some w
    | MEff.monitorRun _ => none)

/-! ## Helper lemmas -/

lemma calculate_distance_0034 : calculate_distance 0 0 3 4 = 5 := by
  unfold calculate_distance
  rw [show ((3 : ℝ) - 0) ^ 2 + ((4 : ℝ) - 0) ^ 2 = 5 ^ 2 by norm_num]
  exact Real.sqrt_sq (by norm_num)

lemma calculate_distance_self (x y : ℝ) : calculate_distance x y x y = 0 := by
  unfold calculate_distance
  simp

/-! ## Claims -/

/-- Claim C8: calculate_distance is the Euclidean distance of its two
points, with calculate_distance 0 0 3 4 = 5 and zero distance between a
point and itself; record_position stores distance 0 when the previous
pose is absent and the Euclidean distance from the previous pose
otherwise. -/
theorem c8_distance :
    calculate_distance 0 0 3 4 = 5
  ∧ (∀ x y : ℝ, calculate_distance x y x y = 0)
  ∧ (∀ robot_id : Int, ∀ x y ori : ℝ,
      (record_position robot_id x y ori none none).distance = 0)
  ∧ (∀ robot_id : Int, ∀ x y ori px py : ℝ,
      (record_position robot_id x y ori (some px) (some py)).distance
        = calculate_distance px py x y) := by
  refine ⟨calculate_distance_0034, calculate_distance_self, ?_, ?_⟩ <;>
    · intros
      rfl

/-- Claim C10: record_position stores distance 0 unless both previous
coordinates are present; supplying only one of them records distance 0,
like supplying none at all. -/
theorem c10_partial_prev :
    ∀ robot_id : Int, ∀ x y ori px py : ℝ,
      (record_position robot_id x y ori (some px) none).distance = 0
    ∧ (record_position robot_id x y ori none (some py)).distance = 0 := by
  intros
  exact ⟨rfl, rfl⟩

/-- Claim C7: the manager backoff before the n-th restart is
min(5 n, 60) seconds: the first five waits are 5, 10, 15, 20, 25, and
every restart count of at least 12 waits 60 seconds. -/
theorem c7_backoff :
    restartWaits (pub_robot_status_manager (some 1) 5) = [5, 10, 15, 20, 25]
  ∧ ∀ n : Nat, 12 ≤ n → wait_time n = 60 := by
  constructor
  · rfl
  · intro n h
    unfold wait_time
    omega

/-- Witness for claim C7 at restart count 12. -/
theorem c7_backoff_witness : wait_time 12 = 60 :=
  c7_backoff.2 12 (by norm_num)

/-- Claim C9: when the serial-number lookup yields no robot id the
manager returns without entering the restart loop: its trace is empty
(no monitor run, no session, no backoff wait), for any number of
would-be crashes; with a resolved id the monitor does run. -/
theorem c9_config_error :
    (∀ crashes : Nat, pub_robot_status_manager none crashes = [])
  ∧ pub_robot_status_manager (some 7) 0 = [MEff.monitorRun 7] :=
  ⟨fun _ => rfl, rfl⟩

/-- Claim C1 (code evaluated at the failing input): with the
cross-reference holding task 7, the events moving, moving, succeeded
cause exactly one update to completed and one completion publish, but
handle_planning_state leaves the cross-reference set (only its failed
and cancelled branches delete it), so a stray fourth succeeded event
produces a second update and a second publish. -/
theorem c1_succeeded_leaves_crossref :
    (run_planning_events { current_task_id := some 7 }
        [⟨"moving", "none"⟩, ⟨"moving", "none"⟩, ⟨"succeeded", "none"⟩]).2.count
      (TaskEff.updateTaskStatus 7 "completed" none) = 1
  ∧ (run_planning_events { current_task_id := some 7 }
        [⟨"moving", "none"⟩, ⟨"moving", "none"⟩, ⟨"succeeded", "none"⟩]).2.count
      (TaskEff.publish "robot:task_completed" 7) = 1
  ∧ (run_planning_events { current_task_id := some 7 }
        [⟨"moving", "none"⟩, ⟨"moving", "none"⟩,
         ⟨"succeeded", "none"⟩]).1.current_task_id = some 7
  ∧ (run_planning_events { current_task_id := some 7 }
        [⟨"moving", "none"⟩, ⟨"moving", "none"⟩, ⟨"succeeded", "none"⟩,
         ⟨"succeeded", "none"⟩]).2.count
      (TaskEff.updateTaskStatus 7 "completed" none) = 2
  ∧ (run_planning_events { current_task_id := some 7 }
        [⟨"moving", "none"⟩, ⟨"moving", "none"⟩, ⟨"succeeded", "none"⟩,
         ⟨"succeeded", "none"⟩]).2.count
      (TaskEff.publish "robot:task_completed" 7) = 2 := by
  decide

/-- Claim C2 counterexample: two start_robot_session calls for robot 1
leave two rows with status online, because rows are only appended and
the earlier online row is never updated. -/
theorem c2_counterexample :
    countOnline (runSessionOps emptyDb [SessionOp.start 1, SessionOp.start 1]).rows 1 = 2
  ∧ ¬ countOnline (runSessionOps emptyDb
        [SessionOp.start 1, SessionOp.start 1]).rows 1 ≤ 1 := by
  decide

/-- Claim C4 counterexample: after start then end for robot 1 the most
recent session row is offline (no open session in the claim's sense),
yet a further end_robot_session still finds the surviving online row,
returns a fresh session id, and appends another offline row. -/
theorem c4_counterexample :
    ((runSessionOps emptyDb [SessionOp.start 1, SessionOp.stop 1 "normal"]).rows.getLast?.map
        (fun r => r.status)) = some "offline"
  ∧ (runSessionOps emptyDb [SessionOp.start 1, SessionOp.stop 1 "normal"]).rows.length = 2
  ∧ (end_robot_session (runSessionOps emptyDb
        [SessionOp.start 1, SessionOp.stop 1 "normal"]) 1 "late").2 = some 2
  ∧ (end_robot_session (runSessionOps emptyDb
        [SessionOp.start 1, SessionOp.stop 1 "normal"]) 1 "late").1.rows.length = 3 := by
  decide

/-- Claim C4 (amended): end_robot_session returns none and performs no
write exactly when the robot has no row with status online at all, i.e.
no session was ever started for it. -/
theorem c4_amended (db : SessionDb) (robot_id : Int) (reason : String)
    (h : latestOnlineRow db.rows robot_id = none) :
    end_robot_session db robot_id reason = (db, none) := by
  unfold end_robot_session
  rw [h]

/-- Witness for the amended claim C4 on the empty table. -/
theorem c4_amended_witness :
    end_robot_session emptyDb 1 "late" = (emptyDb, none) :=
  c4_amended emptyDb 1 "late" rfl

lemma start_countOnline (db : SessionDb) (rid2 rid : Int) :
    countOnline (start_robot_session db rid2).1.rows rid
      = countOnline db.rows rid + (if rid2 == rid then 1 else 0) := by
  cases h : rid2 == rid <;>
    cases hu : latestOnlineRow db.rows rid2 <;>
      simp [start_robot_session, hu, insertRow, countOnline, List.filter_append, h]

lemma stop_countOnline (db : SessionDb) (rid2 rid : Int) (reason : String) :
    countOnline (end_robot_session db rid2 reason).1.rows rid
      = countOnline db.rows rid := by
  cases hu : latestOnlineRow db.rows rid2 <;>
    simp [end_robot_session, hu, insertRow, countOnline, List.filter_append]

lemma start_durOk (db : SessionDb) (rid2 : Int)
    (h : offlineDurationsOk db.rows = true) :
    offlineDurationsOk (start_robot_session db rid2).1.rows = true := by
  cases hu : latestOnlineRow db.rows rid2 <;>
    simp [start_robot_session, hu, insertRow, offlineDurationsOk, List.all_append] <;>
      simpa [offlineDurationsOk] using h

lemma stop_durOk (db : SessionDb) (rid2 : Int) (reason : String)
    (h : offlineDurationsOk db.rows = true) :
    offlineDurationsOk (end_robot_session db rid2 reason).1.rows = true := by
  cases hu : latestOnlineRow db.rows rid2 <;>
    simp [end_robot_session, hu, insertRow, offlineDurationsOk, List.all_append] <;>
      simpa [offlineDurationsOk] using h

lemma countStarts_cons_start (rid2 rid : Int) (rest : List SessionOp) :
    countStarts (SessionOp.start rid2 :: rest) rid
      = (if rid2 == rid then 1 else 0) + countStarts rest rid := by
  cases h : rid2 == rid <;> simp [countStarts, List.filter_cons, h]
  omega

lemma countStarts_cons_stop (rid2 rid : Int) (reason : String)
    (rest : List SessionOp) :
    countStarts (SessionOp.stop rid2 reason :: rest) rid = countStarts rest rid := by
  simp [countStarts, List.filter_cons]

lemma sessions_inv (ops : List SessionOp) :
    ∀ db : SessionDb, ∀ rid : Int,
      (offlineDurationsOk db.rows = true →
        offlineDurationsOk (runSessionOps db ops).rows = true)
    ∧ countOnline (runSessionOps db ops).rows rid
        = countOnline db.rows rid + countStarts ops rid := by
  induction ops with
  | nil =>
      intro db rid
      exact ⟨fun h => h, by simp [runSessionOps, countStarts]⟩
  | cons op rest ih =>
      intro db rid
      cases op with
      | start rid2 =>
          refine ⟨fun h => ?_, ?_⟩
          · simpa [runSessionOps] using
              (ih (start_robot_session db rid2).1 rid).1 (start_durOk db rid2 h)
          · have h2 := (ih (start_robot_session db rid2).1 rid).2
            simp only [runSessionOps] at h2 ⊢
            rw [h2, start_countOnline, countStarts_cons_start]
            omega
      | stop rid2 reason =>
          refine ⟨fun h => ?_, ?_⟩
          · simpa [runSessionOps] using
              (ih (end_robot_session db rid2 reason).1 rid).1 (stop_durOk db rid2 reason h)
          · have h2 := (ih (end_robot_session db rid2 reason).1 rid).2
            simp only [runSessionOps] at h2 ⊢
            rw [h2, stop_countOnline, countStarts_cons_stop]

/-- Claim C2 (amended): after any sequence of start_robot_session and
end_robot_session calls, every offline row has a non-null duration, but
online rows accumulate: the number of rows with status online for a
robot equals the number of start calls for it, so several online rows
can coexist (rows are appended, never updated). -/
theorem c2_amended (ops : List SessionOp) (rid : Int) :
    offlineDurationsOk (runSessionOps emptyDb ops).rows = true
  ∧ countOnline (runSessionOps emptyDb ops).rows rid = countStarts ops rid := by
  have h := sessions_inv ops emptyDb rid
  refine ⟨h.1 rfl, ?_⟩
  have h2 := h.2
  simpa [emptyDb, countOnline] using h2

/-- Claim C3 counterexample: in a connect, disconnect, reconnect run,
the first movement sample recorded after the reconnect carries the pose
from before the disconnect as its previous pose (prev_pose is a local of
pub_robot_status, never reset on reconnect), so its stored incremental
distance is calculate_distance 0 0 3 4 = 5, not 0. -/
theorem c3_counterexample :
    pub_robot_status none
        [{ events := [RecvEvent.frame (Frame.pose 0 0)],
           ending := EpochEnd.connLost "ConnectionClosedError" },
         { events := [RecvEvent.frame (Frame.pose 3 4)],
           ending := EpochEnd.shutdown }]
      = [Eff.startSession 0, Eff.setOnline, Eff.record 0 0 none none, Eff.publishPose,
         Eff.endSession "Connection_lost: ConnectionClosedError", Eff.setOffline,
         Eff.publishStatus, Eff.reconnectWait 5,
         Eff.startSession 1, Eff.setOnline, Eff.record 3 4 (some 0) (some 0),
         Eff.publishPose, Eff.endSession "server_shutdown", Eff.setOffline]
  ∧ recordPositionDistance (some 0) (some 0) 3 4 = 5
  ∧ (5 : ℝ) ≠ 0 := by
  refine ⟨rfl, ?_, by norm_num⟩
  show calculate_distance 0 0 3 4 = 5
  exact calculate_distance_0034

/-- Claim C3 (amended): the previous-pose reference is carried across
connection epochs: within one pub_robot_status run only the very first
movement sample has no previous pose (and hence stored distance 0),
while the first sample after a reconnect references the last pose from
before the disconnect and stores the Euclidean distance from it. -/
theorem c3_amended :
    ∀ a b c d : ℝ,
      pub_robot_status none
          [{ events := [RecvEvent.frame (Frame.pose a b)],
             ending := EpochEnd.connLost "ConnectionClosedError" },
           { events := [RecvEvent.frame (Frame.pose c d)],
             ending := EpochEnd.shutdown }]
        = [Eff.startSession 0, Eff.setOnline, Eff.record a b none none, Eff.publishPose,
           Eff.endSession "Connection_lost: ConnectionClosedError", Eff.setOffline,
           Eff.publishStatus, Eff.reconnectWait 5,
           Eff.startSession 1, Eff.setOnline, Eff.record c d (some a) (some b),
           Eff.publishPose, Eff.endSession "server_shutdown", Eff.setOffline]
    ∧ recordPositionDistance (some a) (some b) c d = calculate_distance a b c d
    ∧ recordPositionDistance none none a b = 0 := by
  intro a b c d
  exact ⟨rfl, rfl, rfl⟩

/-- Claim C5 counterexample: a malformed frame is not merely dropped.
It escapes the inner loop (which only catches receive timeouts), the
generic exception handler ends the session with an unexpected_error
reason, and the frames queued after it on that connection are never
processed. -/
theorem c5_counterexample :
    pub_robot_status none
        [{ events := [RecvEvent.frame (Frame.pose 1 2), RecvEvent.malformed,
             RecvEvent.frame Frame.battery],
           ending := EpochEnd.shutdown }]
      = [Eff.startSession 0, Eff.setOnline, Eff.record 1 2 none none, Eff.publishPose,
         Eff.endSession "unexpected_error: JSONDecodeError", Eff.sleep5]
  ∧ Eff.endSession "unexpected_error: JSONDecodeError"
      ∈ pub_robot_status none
          [{ events := [RecvEvent.frame (Frame.pose 1 2), RecvEvent.malformed,
               RecvEvent.frame Frame.battery],
             ending := EpochEnd.shutdown }]
  ∧ Eff.setBattery
      ∉ pub_robot_status none
          [{ events := [RecvEvent.frame (Frame.pose 1 2), RecvEvent.malformed,
               RecvEvent.frame Frame.battery],
             ending := EpochEnd.shutdown }] := by
  have h : pub_robot_status none
        [{ events := [RecvEvent.frame (Frame.pose 1 2), RecvEvent.malformed,
             RecvEvent.frame Frame.battery],
           ending := EpochEnd.shutdown }]
      = [Eff.startSession 0, Eff.setOnline, Eff.record 1 2 none none, Eff.publishPose,
         Eff.endSession "unexpected_error: JSONDecodeError", Eff.sleep5] := rfl
  refine ⟨h, ?_, ?_⟩ <;> rw [h] <;> simp

/-- Claim C5 (amended): a malformed frame reaches the generic exception
handler of the outer loop: the open session is ended with reason
unexpected_error: JSONDecodeError, the remaining frames of that
connection are dropped with it, a 5 second sleep follows, and the outer
loop then reconnects (the coroutine itself is not aborted). -/
theorem c5_amended (s : PubState) (sid : Nat) (rest : List RecvEvent)
    (ending : EpochEnd) (h : s.session_id = some sid) :
    runEpoch s { events := RecvEvent.malformed :: rest, ending := ending }
      = ({ s with session_id := none },
         [Eff.endSession "unexpected_error: JSONDecodeError", Eff.sleep5], false) := by
  obtain ⟨pp, si, ns, ct⟩ := s
  simp only at h
  subst h
  rfl

/-- Witness for the amended claim C5. -/
theorem c5_amended_witness :
    runEpoch { prev_pose := none, session_id := some 3, next_sid := 4,
               current_task := none }
        { events := [RecvEvent.malformed], ending := EpochEnd.shutdown }
      = ({ prev_pose := none, session_id := none, next_sid := 4,
           current_task := none },
         [Eff.endSession "unexpected_error: JSONDecodeError", Eff.sleep5], false) :=
  c5_amended _ 3 [] EpochEnd.shutdown rfl

/-- Claim C6 counterexample: a persistence or broker call raising while
a frame is handled does not leave the session open: the generic handler
ends the session with an unexpected_error reason and the remaining
frames of that connection are never processed. -/
theorem c6_counterexample :
    pub_robot_status none
        [{ events := [RecvEvent.frame Frame.battery, RecvEvent.dbError "InterfaceError",
             RecvEvent.frame (Frame.pose 1 1)],
           ending := EpochEnd.shutdown }]
      = [Eff.startSession 0, Eff.setOnline, Eff.setBattery, Eff.publishStatus,
         Eff.endSession "unexpected_error: InterfaceError", Eff.sleep5]
  ∧ Eff.endSession "unexpected_error: InterfaceError"
      ∈ pub_robot_status none
          [{ events := [RecvEvent.frame Frame.battery, RecvEvent.dbError "InterfaceError",
               RecvEvent.frame (Frame.pose 1 1)],
             ending := EpochEnd.shutdown }]
  ∧ Eff.publishPose
      ∉ pub_robot_status none
          [{ events := [RecvEvent.frame Frame.battery, RecvEvent.dbError "InterfaceError",
               RecvEvent.frame (Frame.pose 1 1)],
             ending := EpochEnd.shutdown }] := by
  have h : pub_robot_status none
        [{ events := [RecvEvent.frame Frame.battery, RecvEvent.dbError "InterfaceError",
             RecvEvent.frame (Frame.pose 1 1)],
           ending := EpochEnd.shutdown }]
      = [Eff.startSession 0, Eff.setOnline, Eff.setBattery, Eff.publishStatus,
         Eff.endSession "unexpected_error: InterfaceError", Eff.sleep5] := rfl
  refine ⟨h, ?_, ?_⟩ <;> rw [h] <;> simp

/-- Claim C6 (amended): a raising persistence or broker call during
frame handling is caught by the generic handler of the outer loop: the
session is ended with reason unexpected_error plus the exception name,
a 5 second sleep follows, and the outer loop reconnects; the coroutine
continues but the session does not stay open. -/
theorem c6_amended (s : PubState) (sid : Nat) (ename : String)
    (rest : List RecvEvent) (ending : EpochEnd) (h : s.session_id = some sid) :
    runEpoch s { events := RecvEvent.dbError ename :: rest, ending := ending }
      = ({ s with session_id := none },
         [Eff.endSession ("unexpected_error: " ++ ename), Eff.sleep5], false) := by
  obtain ⟨pp, si, ns, ct⟩ := s
  simp only at h
  subst h
  rfl

/-- Witness for the amended claim C6. -/
theorem c6_amended_witness :
    runEpoch { prev_pose := none, session_id := some 2, next_sid := 3,
               current_task := some 9 }
        { events := [RecvEvent.dbError "OperationalError"], ending := EpochEnd.shutdown }
      = ({ prev_pose := none, session_id := none, next_sid := 3,
           current_task := some 9 },
         [Eff.endSession ("unexpected_error: " ++ "OperationalError"), Eff.sleep5],
         false) :=
  c6_amended _ 2 "OperationalError" [] EpochEnd.shutdown rfl

end RoboFleet
